import Mathlib

/-!
Verification development for the streaming completion relay implemented in
the repository route handler (the POST function of the /api/chat route).
JavaScript string values are modelled as Lean String; JavaScript truthiness
of a string is non-emptiness, of an optional value it is presence of a
non-empty payload; the JavaScript trim method is modelled as removal of
leading and trailing whitespace characters.
-/

namespace Neurox

/-- JavaScript truthiness of a string value: true exactly on non-empty strings. -/
def strTruthy (s : String) : Bool := s != ""

/-- JavaScript truthiness of an optional string field (undefined, or a string). -/
def optTruthy (o : Option String) : Bool :=
  match o with
  | none => false
  | some s => s != ""

/-- JavaScript truthiness of an optional numeric field (used for error.status). -/
def numTruthy (o : Option Nat) : Bool :=
  match o with
  | none => false
  | some n => n != 0

/-- Removal of leading and trailing whitespace from a character list. -/
def trimChars (l : List Char) : List Char :=
  ((l.dropWhile Char.isWhitespace).reverse.dropWhile Char.isWhitespace).reverse

/-- Model of the JavaScript String.trim method. -/
def jsTrim (s : String) : String := ⟨trimChars s.data⟩

/-- Substring containment: sub occurs contiguously inside s. -/
def containsStr (s sub : String) : Prop := ∃ p q : String, s = p ++ sub ++ q

/-- Message roles accepted from the client (route.ts, interface ClientMessage). -/
inductive Role
  | system
  | user
  | assistant
  deriving DecidableEq

/-- The optional data record of a client message (route.ts, interface ClientMessage). -/
structure AttachmentData where
  fileDataUrl : Option String
  fileName : Option String
  fileType : Option String
  deriving DecidableEq

/-- A message as submitted by the caller (route.ts, interface ClientMessage). -/
structure ClientMessage where
  role : Role
  content : String
  data : Option AttachmentData
  deriving DecidableEq

/-- A message in the shape the upstream SDK expects (SdkMessageParam in route.ts). -/
structure SdkMessage where
  role : Role
  content : String
  deriving DecidableEq

/-- The fixed system instruction text (route.ts, constant systemMessageContent). -/
def systemMessageContent : String :=
  "You are Neurox, a helpful and friendly AI assistant. Provide concise and accurate answers. If an image is mentioned, acknowledge it appropriately based on the context provided by its name."

/-- The synthesized system message placed at position 0 of the upstream sequence. -/
def systemSdkMessage : SdkMessage :=
  { role := Role.system, content := systemMessageContent }

/-- The acknowledgment line built from the attachment file name
(route.ts, template literal fileAcknowledgement). -/
def fileAcknowledgement (fileName : String) : String :=
  "\n[User has attached an image: \"" ++ fileName ++ "\". Please acknowledge this attachment.]"

/-- The combined text for an attachment-carrying user turn
(route.ts: userText.trim() + space + fileAcknowledgement.trim(), then trim()). -/
def combinedText (userText fileName : String) : String :=
  jsTrim (jsTrim userText ++ " " ++ jsTrim (fileAcknowledgement fileName))

/-- The continue guard of the preparation loop: a turn is skipped when its content
is falsy and its data record carries no truthy fileDataUrl (route.ts line 65). -/
def emptyTurn (m : ClientMessage) : Bool :=
  !(strTruthy m.content) && !(optTruthy (m.data.bind AttachmentData.fileDataUrl))

/-- The guard of the attachment branch: role is user and both fileDataUrl and
fileName are truthy (route.ts line 69). -/
def attachmentBranch (m : ClientMessage) : Bool :=
  (m.role == Role.user)
    && optTruthy (m.data.bind AttachmentData.fileDataUrl)
    && optTruthy (m.data.bind AttachmentData.fileName)

/-- One iteration of the preparation loop of the POST handler (route.ts lines 64 to 101):
none means the turn is skipped; in the attachment branch both media-type branches of the
source construct the same text-only user message; otherwise the message passes through
with role and content unchanged. -/
def prepareMessage (m : ClientMessage) : Option SdkMessage :=
  if emptyTurn m then none
  else if attachmentBranch m then
    some { role := Role.user
           content := combinedText m.content ((m.data.bind AttachmentData.fileName).getD "") }
  else
    some { role := m.role, content := m.content }

/-- The full prepared sequence: the fixed system message followed by the prepared
client turns (route.ts lines 60 to 101). -/
def preparedMessages (msgs : List ClientMessage) : List SdkMessage :=
  systemSdkMessage :: msgs.filterMap prepareMessage

/-- The prepared form of a surviving (non-skipped) client message. -/
def normalizeKept (m : ClientMessage) : SdkMessage :=
  (prepareMessage m).getD { role := m.role, content := m.content }

/-- The delta payload of one choice of a completion chunk (SDK ChatCompletionChunk). -/
structure DeltaPayload where
  content : Option String
  deriving DecidableEq

/-- One choice of a completion chunk, with optional delta and finish reason. -/
structure Choice where
  delta : Option DeltaPayload
  finish_reason : Option String
  deriving DecidableEq

/-- One unit of upstream streaming output (SDK ChatCompletionChunk). -/
structure ChatCompletionChunk where
  choices : List Choice
  deriving DecidableEq

/-- The optional-chaining read chunk.choices[0].delta.content of the stream loop. -/
def chunkContentDelta (c : ChatCompletionChunk) : Option String :=
  (c.choices.head?.bind Choice.delta).bind DeltaPayload.content

/-- The optional-chaining read chunk.choices[0].finish_reason of the stream loop. -/
def chunkFinishReason (c : ChatCompletionChunk) : Option String :=
  c.choices.head?.bind Choice.finish_reason

/-- The text the loop body enqueues for one chunk, if any: the content delta when it
is truthy, nothing otherwise (route.ts lines 141 to 145). -/
def enqueuedDelta (c : ChatCompletionChunk) : Option String :=
  match chunkContentDelta c with
  | some s => if s != "" then some s else none
  | none => none

/-- Whether the loop breaks after this chunk: truthiness of finish_reason
(route.ts lines 146 to 149). -/
def finishTruthy (c : ChatCompletionChunk) : Bool :=
  optTruthy (chunkFinishReason c)

/-- The texts enqueued to the caller-facing stream by the for-await loop of the
readable stream start callback, in order (route.ts lines 140 to 150): each chunk
contributes its truthy content delta, and the loop stops right after the first
chunk whose finish_reason is truthy. -/
def emittedDeltas : List ChatCompletionChunk → List String
  | [] => []
  | c :: rest =>
      if finishTruthy c then (enqueuedDelta c).toList
      else (enqueuedDelta c).toList ++ emittedDeltas rest

/-- The chunks the loop actually reads: everything up to and including the first
chunk with a truthy finish_reason (all chunks when there is none). -/
def readChunks : List ChatCompletionChunk → List ChatCompletionChunk
  | [] => []
  | c :: rest =>
      if finishTruthy c then [c]
      else c :: readChunks rest

/-- The truthy (non-empty) content deltas of a chunk list, in order. -/
def nonEmptyDeltas (cs : List ChatCompletionChunk) : List String :=
  cs.filterMap enqueuedDelta

/-- The caller-observed output of the stream as text. TextEncoder.encode is a
concatenation homomorphism from strings to UTF-8 byte sequences, so byte-level
concatenation equalities are stated at the string level. -/
def relayOutput (cs : List ChatCompletionChunk) : String :=
  String.join (emittedDeltas cs)

/-- The parsed request body as seen by the validation guard (route.ts lines 52 to 58):
the json call can throw, the messages field can be falsy, not an array, or an array
of client messages. -/
inductive ReqBody
  | parseFail (message : String)
  | missingMessages
  | notArray
  | messages (msgs : List ClientMessage)
  deriving DecidableEq

/-- Outcome of the upstream create call for one invocation: an SDK APIError with
optional status and a message, an abort (the deadline fired before the call
resolved), or a successful stream of chunks. -/
inductive UpstreamResult
  | apiError (status : Option Nat) (message : String)
  | abortError
  | ok (chunks : List ChatCompletionChunk)
  deriving DecidableEq

/-- The observable outcome of one POST invocation: HTTP status, body text (for a
streamed response, the concatenation of streamed bytes as text), whether the
response is streamed, whether the upstream create call was issued, and whether
the handler attempted to read the request body. -/
structure HandlerResponse where
  status : Nat
  body : String
  isStream : Bool
  upstreamCalled : Bool
  parsedBody : Bool
  deriving DecidableEq

/-- Body of the missing-credential response (route.ts line 38). -/
def apiKeyErrorBody : String := "API key not configured"

/-- Body of the validation failure response (route.ts line 57). -/
def validationErrorBody : String :=
  "Invalid request body: \x27messages\x27 array is required and cannot be empty."

/-- Body of the timeout response (route.ts line 183). -/
def timeoutBody : String := "The request to the AI service timed out."

/-- The validation failure response: HTTP 400, upstream never contacted. -/
def validationResponse : HandlerResponse :=
  { status := 400, body := validationErrorBody, isStream := false
    upstreamCalled := false, parsedBody := true }

/-- The message text the catch block searches for (route.ts line 181). -/
def abortMarker : String := "The operation was aborted"

/-- Model of the JavaScript String.includes method: sub occurs contiguously in s. -/
def jsIncludes (s sub : String) : Bool := decide (sub.data <:+: s.data)

/-- The POST handler of the route (route.ts lines 32 to 199), as a function of the
credential read at process start, the parsed request body, and the outcome of the
upstream create call. The guard order follows the source: credential check before
body parsing, validation before the upstream call. The catch block first checks for
an abort (the error is named AbortError, or its message contains the abort marker,
route.ts line 181) and responds 504 with a fixed body; only then an APIError maps
to the upstream status when truthy (500 otherwise) with the upstream message in the
body. Because an APIError is an Error, an APIError whose message contains the abort
marker is caught by the first check. The name-based disjunct of line 181 is covered
by the abortError case (the aborted create call rejects with an AbortError); for
errors modelled with a message, only the message-based disjunct can fire. A
successful stream maps to a 200 streamed response whose bytes are the emitted
deltas. -/
def POST (apiKey : Option String) (body : ReqBody) (upstream : UpstreamResult) :
    HandlerResponse :=
  if !(optTruthy apiKey) then
    { status := 500, body := apiKeyErrorBody, isStream := false
      upstreamCalled := false, parsedBody := false }
  else
    match body with
    | ReqBody.parseFail msg =>
        if jsIncludes msg abortMarker then
          { status := 504, body := timeoutBody, isStream := false
            upstreamCalled := false, parsedBody := true }
        else
          { status := 500, body := "Error processing request: " ++ msg, isStream := false
            upstreamCalled := false, parsedBody := true }
    | ReqBody.missingMessages => validationResponse
    | ReqBody.notArray => validationResponse
    | ReqBody.messages msgs =>
        if msgs.length == 0 then validationResponse
        else
          match upstream with
          | UpstreamResult.apiError st msg =>
              if jsIncludes msg abortMarker then
                { status := 504, body := timeoutBody, isStream := false
                  upstreamCalled := true, parsedBody := true }
              else
                { status := if numTruthy st then st.getD 500 else 500
                  body := "AI Service Error: "
                    ++ (if strTruthy msg then msg
                        else "An error occurred with the AI service.")
                  isStream := false, upstreamCalled := true, parsedBody := true }
          | UpstreamResult.abortError =>
              { status := 504, body := timeoutBody, isStream := false
                upstreamCalled := true, parsedBody := true }
          | UpstreamResult.ok chunks =>
              { status := 200, body := relayOutput chunks, isStream := true
                upstreamCalled := true, parsedBody := true }

/-- The fixed deadline constant (route.ts line 30). -/
def API_CALL_TIMEOUT_MS : Nat := 55000

/-- Whether the setTimeout callback fires and aborts the upstream connection: the
timer is set before the try block and cleared as soon as the create call resolves
(route.ts lines 44 to 49 and 118 to 119), so it fires exactly when the create call
has not resolved by the deadline. -/
def timeoutFires (createResolveTime : Nat) : Bool :=
  decide (API_CALL_TIMEOUT_MS < createResolveTime)

/-- Whether the deadline timer is still armed at time t (milliseconds from request
start) when the create call resolves at createResolveTime: it is armed from time 0
until it either fires at the deadline or is cleared at create resolution. -/
def timerArmedAt (createResolveTime t : Nat) : Bool :=
  decide (t < API_CALL_TIMEOUT_MS) && decide (t < createResolveTime)

/-- The deadline elapses while deltas are still being streamed: the create call has
resolved, and the stream is still being consumed past the deadline. -/
def deadlineElapsesMidStream (createResolveTime endOfStreamTime : Nat) : Prop :=
  createResolveTime ≤ endOfStreamTime ∧ API_CALL_TIMEOUT_MS < endOfStreamTime

/-- Phase of the caller-facing ReadableStream controller. -/
inductive CtrlPhase
  | readable
  | closed
  | errored
  deriving DecidableEq

/-- The caller-facing stream controller: its phase, and a count of observable
termination events (a close event or an error event) delivered to the caller. -/
structure Ctrl where
  phase : CtrlPhase
  termEvents : Nat
  deriving DecidableEq

/-- controller.close() wrapped in try/catch (route.ts line 131): on a readable
controller it delivers one close event; otherwise it throws and the handler
swallows the exception, so nothing observable happens. -/
def tryClose (c : Ctrl) : Ctrl :=
  match c.phase with
  | CtrlPhase.readable => { phase := CtrlPhase.closed, termEvents := c.termEvents + 1 }
  | _ => c

/-- controller.error(e) wrapped in try/catch (route.ts line 156): on a readable
controller it delivers one error event; otherwise it is swallowed. -/
def tryError (c : Ctrl) : Ctrl :=
  match c.phase with
  | CtrlPhase.readable => { phase := CtrlPhase.errored, termEvents := c.termEvents + 1 }
  | _ => c

/-- State of the output stream writer: the controller plus the streamClosed flag
(route.ts line 127). -/
structure WriterState where
  ctrl : Ctrl
  streamClosed : Bool
  deriving DecidableEq

/-- The closeStream closure (route.ts lines 129 to 136): a no-op when the
streamClosed flag is set, otherwise it closes the controller (exception swallowed)
and sets the flag. -/
def closeStream (w : WriterState) : WriterState :=
  if w.streamClosed then w
  else { ctrl := tryClose w.ctrl, streamClosed := true }

/-- State of the per-request AbortController: whether its signal is aborted, and
how many times abort() has actually been invoked. -/
structure AbortState where
  aborted : Bool
  abortCalls : Nat
  deriving DecidableEq

/-- abortController.abort(...): marks the signal aborted. -/
def abortNow (a : AbortState) : AbortState :=
  { aborted := true, abortCalls := a.abortCalls + 1 }

/-- The cancel callback of the caller-facing ReadableStream (route.ts lines 162 to
167): invoked when the caller disconnects; it aborts the upstream connection unless
the signal is already aborted. -/
def cancelHandler (a : AbortState) : AbortState :=
  if a.aborted then a else abortNow a

/-- A plain one-turn user message, used as a concrete input in witnesses. -/
def helloMsg : ClientMessage := { role := Role.user, content := "Hello", data := none }

/-- A chunk that carries delta text and a truthy finish reason. -/
def finishedChunk : ChatCompletionChunk :=
  { choices := [{ delta := some { content := some "a" }, finish_reason := some "stop" }] }

/-- A chunk that carries delta text and no finish reason. -/
def trailingChunk : ChatCompletionChunk :=
  { choices := [{ delta := some { content := some "b" }, finish_reason := none }] }

/-- An assistant-role message with empty content that carries an attachment. -/
def attachAssistantMsg : ClientMessage :=
  { role := Role.assistant, content := ""
    data := some { fileDataUrl := some "data:image/png;base64,AA=="
                   fileName := some "photo.png", fileType := some "image/png" } }

/-- A user-role message with empty content that carries an attachment. -/
def attachUserMsg : ClientMessage :=
  { role := Role.user, content := ""
    data := some { fileDataUrl := some "data:image/png;base64,AA=="
                   fileName := some "photo.png", fileType := some "image/png" } }

/-- The characters of the acknowledgment line between the opening bracket and the
closing file-name quote. -/
def ackHeadChars : List Char := "User has attached an image: \"".data

/-- The characters of the acknowledgment line between the closing file-name quote
and the closing bracket. -/
def ackTailChars : List Char := "\". Please acknowledge this attachment.".data

/-- Appending the empty string on the right is the identity. -/
theorem str_append_empty (s : String) : s ++ "" = s := by
  apply String.ext
  rw [String.data_append]
  exact List.append_nil s.data

/-- Substring containment agrees with contiguous-infix containment of the
character lists, so it can be decided by evaluation. -/
theorem containsStr_iff_chars (s sub : String) :
    containsStr s sub ↔ sub.data <:+: s.data := by
  constructor
  · rintro ⟨p, q, rfl⟩
    exact ⟨p.data, q.data, by simp [String.data_append]⟩
  · rintro ⟨p, q, h⟩
    refine ⟨⟨p⟩, ⟨q⟩, ?_⟩
    apply String.ext
    rw [String.data_append, String.data_append]
    exact h.symm

/-- A prepared turn is skipped exactly when the continue guard holds. -/
theorem prepareMessage_none_iff (m : ClientMessage) :
    prepareMessage m = none ↔ emptyTurn m = true := by
  unfold prepareMessage
  by_cases h : emptyTurn m <;> by_cases h2 : attachmentBranch m <;> simp [h, h2]

/-- The prepared client turns are exactly the surviving turns, converted in order. -/
theorem filterMap_prepare (msgs : List ClientMessage) :
    msgs.filterMap prepareMessage
      = (msgs.filter (fun m => !(emptyTurn m))).map normalizeKept := by
  induction msgs with
  | nil => rfl
  | cons m rest ih =>
      by_cases h : emptyTurn m
      · have hn : prepareMessage m = none := (prepareMessage_none_iff m).2 h
        simp [List.filterMap_cons, List.filter_cons, h, hn, ih]
      · cases hp : prepareMessage m with
        | none => exact absurd ((prepareMessage_none_iff m).1 hp) (by simpa using h)
        | some s =>
            simp [List.filterMap_cons, List.filter_cons, h, hp, ih, normalizeKept]

/-- The stream loop emits exactly the truthy deltas of the chunks it reads. -/
theorem emittedDeltas_eq_read (cs : List ChatCompletionChunk) :
    emittedDeltas cs = nonEmptyDeltas (readChunks cs) := by
  induction cs with
  | nil => rfl
  | cons c rest ih =>
      by_cases h : finishTruthy c <;>
        cases hd : enqueuedDelta c <;>
          simp [emittedDeltas, readChunks, nonEmptyDeltas, List.filterMap_cons, h, hd, ih]

/-- Dropping whitespace from an all-whitespace block followed by a non-whitespace
character leaves everything from that character on. -/
theorem dropWhile_ws_of_all (w : List Char) (hw : ∀ x ∈ w, Char.isWhitespace x = true)
    (c : Char) (hc : Char.isWhitespace c = false) (l : List Char) :
    (w ++ c :: l).dropWhile Char.isWhitespace = c :: l := by
  induction w with
  | nil => simp [List.dropWhile_cons, hc]
  | cons a as ih =>
      have ha := hw a (List.mem_cons_self a as)
      simp only [List.cons_append, List.dropWhile_cons, ha, if_true]
      exact ih (fun x hx => hw x (List.mem_cons_of_mem a hx))

/-- Trimming a list that is leading whitespace, then a non-whitespace character,
then arbitrary content ending in a non-whitespace character, keeps exactly the
part from the first non-whitespace character on. -/
theorem trimChars_sandwich (w mid : List Char) (c d : Char)
    (hw : ∀ x ∈ w, Char.isWhitespace x = true)
    (hc : Char.isWhitespace c = false) (hd : Char.isWhitespace d = false) :
    trimChars (w ++ c :: (mid ++ [d])) = c :: (mid ++ [d]) := by
  unfold trimChars
  rw [dropWhile_ws_of_all w hw c hc]
  have hrev : (c :: (mid ++ [d])).reverse = d :: (mid.reverse ++ [c]) := by simp
  rw [hrev]
  simp only [List.dropWhile_cons, hd]
  simp

/-- The character decomposition of the acknowledgment line. -/
theorem fileAck_data (n : String) :
    (fileAcknowledgement n).data
      = ['\n'] ++ '[' :: ((ackHeadChars ++ n.data ++ ackTailChars) ++ [']']) := by
  unfold fileAcknowledgement
  rw [String.data_append, String.data_append]
  have h1 : ("\n[User has attached an image: \"" : String).data
      = '\n' :: '[' :: ackHeadChars := by decide
  have h2 : ("\". Please acknowledge this attachment.]" : String).data
      = ackTailChars ++ [']'] := by decide
  rw [h1, h2]
  simp

/-- Trimming the acknowledgment line removes exactly its leading newline. -/
theorem jsTrim_ack (n : String) :
    jsTrim (fileAcknowledgement n)
      = "[User has attached an image: \""
          ++ n ++ "\". Please acknowledge this attachment.]" := by
  apply String.ext
  show trimChars (fileAcknowledgement n).data = _
  rw [fileAck_data n]
  rw [trimChars_sandwich ['\n'] (ackHeadChars ++ n.data ++ ackTailChars) '[' ']'
      (by decide) (by decide) (by decide)]
  rw [String.data_append, String.data_append]
  have h1 : ("[User has attached an image: \"" : String).data = '[' :: ackHeadChars := by
    decide
  have h2 : ("\". Please acknowledge this attachment.]" : String).data
      = ackTailChars ++ [']'] := by decide
  rw [h1, h2]
  simp

/-- The combined attachment text for an empty user text is exactly the trimmed
acknowledgment line. -/
theorem combinedText_empty (n : String) :
    combinedText "" n
      = "[User has attached an image: \""
          ++ n ++ "\". Please acknowledge this attachment.]" := by
  unfold combinedText
  rw [jsTrim_ack n]
  have he : jsTrim "" = "" := by decide
  rw [he]
  apply String.ext
  show trimChars ("" ++ " "
      ++ ("[User has attached an image: \""
          ++ n ++ "\". Please acknowledge this attachment.]")).data = _
  rw [String.data_append, String.data_append, String.data_append, String.data_append]
  have h0 : ("" : String).data = [] := rfl
  have hsp : (" " : String).data = [' '] := by decide
  have h1 : ("[User has attached an image: \"" : String).data = '[' :: ackHeadChars := by
    decide
  have h2 : ("\". Please acknowledge this attachment.]" : String).data
      = ackTailChars ++ [']'] := by decide
  rw [h0, hsp, h1, h2]
  have hshape : ([] : List Char) ++ [' ']
        ++ ('[' :: ackHeadChars ++ n.data ++ (ackTailChars ++ [']']))
      = [' '] ++ '[' :: ((ackHeadChars ++ n.data ++ ackTailChars) ++ [']']) := by
    simp
  rw [hshape]
  rw [trimChars_sandwich [' '] (ackHeadChars ++ n.data ++ ackTailChars) '[' ']'
      (by decide) (by decide) (by decide)]
  simp

/-- C1, counterexample: for the chunk sequence consisting of a finish-marked chunk
carrying delta a followed by an unmarked chunk carrying delta b, the relay output is
not the concatenation of all non-empty deltas of the sequence: the delta after the
finish-marked chunk is dropped. -/
theorem C1_counterexample :
    relayOutput [finishedChunk, trailingChunk]
      ≠ String.join (nonEmptyDeltas [finishedChunk, trailingChunk]) := by
  decide

/-- C1 (amended): the bytes the relay enqueues are exactly the non-empty content
deltas of the chunks it reads, namely all chunks up to and including the first
finish-marked chunk (all of them when none is marked), in order, none reordered,
merged, or dropped; empty or absent deltas contribute nothing. -/
theorem C1_relay_concat_amended (cs : List ChatCompletionChunk) :
    emittedDeltas cs = nonEmptyDeltas (readChunks cs) ∧
    relayOutput cs = String.join (nonEmptyDeltas (readChunks cs)) := by
  refine ⟨emittedDeltas_eq_read cs, ?_⟩
  unfold relayOutput
  rw [emittedDeltas_eq_read]

/-- C2, counterexample: an invocation whose create call resolves at 1000 ms and
whose delta stream is still being consumed at 60000 ms has its deadline elapse
before the delta sequence is exhausted, yet the timeout callback does not fire, so
the upstream connection is not aborted. -/
theorem C2_counterexample :
    deadlineElapsesMidStream 1000 60000 ∧ timeoutFires 1000 = false := by
  unfold deadlineElapsesMidStream
  exact ⟨⟨by omega, by decide⟩, by decide⟩

/-- C2 (amended): the deadline is armed only while awaiting the initial upstream
response. The timeout callback aborts the in-flight upstream connection exactly
when the create call has not resolved by the deadline; from the moment the create
call resolves the timer is cleared, hence no longer armed while deltas are being
streamed; and when the create call is aborted the handler responds 504. -/
theorem C2_deadline_scope_amended (key : String) (hk : key ≠ "")
    (msgs : List ClientMessage) (hm : msgs ≠ []) (ct t : Nat) (hstream : ct ≤ t) :
    (timeoutFires ct = true ↔ API_CALL_TIMEOUT_MS < ct) ∧
    timerArmedAt ct t = false ∧
    (POST (some key) (ReqBody.messages msgs) UpstreamResult.abortError).status = 504 := by
  have hkey : optTruthy (some key) = true := by simp [optTruthy, bne_iff_ne, hk]
  have hlen : (msgs.length == 0) = false := by
    cases msgs with
    | nil => exact absurd rfl hm
    | cons a l => simp
  refine ⟨by simp [timeoutFires], ?_, by simp [POST, hkey, hlen]⟩
  simp only [timerArmedAt, Bool.and_eq_false_iff, decide_eq_false_iff_not, not_lt]
  omega

/-- C2, witness for the amended theorem at a concrete invocation. -/
theorem C2_witness :
    (timeoutFires 60000 = true ↔ API_CALL_TIMEOUT_MS < 60000) ∧
    timerArmedAt 60000 60000 = false ∧
    (POST (some "k") (ReqBody.messages [helloMsg]) UpstreamResult.abortError).status
      = 504 :=
  C2_deadline_scope_amended "k" (by decide) [helloMsg] (by decide) 60000 60000
    (le_refl 60000)

/-- C3: for every non-empty client message sequence, the normalizer output has
length equal to the number of turns surviving the empty-turn filter plus one, the
synthesized system message occupies position 0, and the surviving turns follow it
in their original relative order (a turn is skipped exactly when its content is
empty and its data record carries no non-empty fileDataUrl). -/
theorem C3_normalizer_shape (msgs : List ClientMessage) (_h : msgs ≠ []) :
    (preparedMessages msgs).length
        = (msgs.filter (fun m => !(emptyTurn m))).length + 1 ∧
    (preparedMessages msgs).head? = some systemSdkMessage ∧
    (preparedMessages msgs).tail
        = (msgs.filter (fun m => !(emptyTurn m))).map normalizeKept := by
  unfold preparedMessages
  refine ⟨?_, rfl, ?_⟩
  · rw [filterMap_prepare]
    simp
  · simp [filterMap_prepare]

/-- C3, witness at a concrete one-turn input. -/
theorem C3_witness :
    (preparedMessages [helloMsg]).length
        = ([helloMsg].filter (fun m => !(emptyTurn m))).length + 1 ∧
    (preparedMessages [helloMsg]).head? = some systemSdkMessage ∧
    (preparedMessages [helloMsg]).tail
        = ([helloMsg].filter (fun m => !(emptyTurn m))).map normalizeKept :=
  C3_normalizer_shape [helloMsg] (by decide)

/-- C4, counterexample: an assistant-role message with empty content and an
attachment (with a file name) passes through the normalizer with empty content;
the synthesized content does not contain the file name. -/
theorem C4_counterexample :
    prepareMessage attachAssistantMsg = some { role := Role.assistant, content := "" } ∧
    ¬ containsStr "" "photo.png" := by
  constructor
  · decide
  · rintro ⟨p, q, hpq⟩
    have h := congrArg String.data hpq
    rw [String.data_append, String.data_append] at h
    have h0 : ("" : String).data = [] := rfl
    rw [h0] at h
    simp at h

/-- C4 (amended): for every user-role message with empty content whose attachment
record carries a non-empty fileDataUrl and a non-empty fileName, the normalizer
synthesizes content containing the file name. For other roles, or when the file
name is absent, the message passes through with its original content. -/
theorem C4_attachment_ack_amended (m : ClientMessage) (d : AttachmentData)
    (u n : String) (hrole : m.role = Role.user) (hdata : m.data = some d)
    (hurl : d.fileDataUrl = some u) (hu : u ≠ "")
    (hname : d.fileName = some n) (hn : n ≠ "") (hcontent : m.content = "") :
    ∃ s : SdkMessage, prepareMessage m = some s ∧ containsStr s.content n := by
  have hempty : emptyTurn m = false := by
    simp [emptyTurn, strTruthy, optTruthy, hdata, hurl, hcontent, bne_iff_ne, hu]
  have hbranch : attachmentBranch m = true := by
    simp [attachmentBranch, hrole, hdata, hurl, hname, optTruthy, bne_iff_ne, hu, hn]
  have hfile : (m.data.bind AttachmentData.fileName).getD "" = n := by
    simp [hdata, hname]
  refine ⟨{ role := Role.user, content := combinedText m.content n }, ?_, ?_⟩
  · simp [prepareMessage, hempty, hbranch, hfile]
  · show containsStr (combinedText m.content n) n
    rw [hcontent, combinedText_empty]
    exact ⟨"[User has attached an image: \"",
      "\". Please acknowledge this attachment.]", by rw [String.append_assoc]⟩

/-- C4, witness for the amended theorem at a concrete user-role input. -/
theorem C4_witness :
    ∃ s : SdkMessage,
      prepareMessage attachUserMsg = some s ∧ containsStr s.content "photo.png" :=
  C4_attachment_ack_amended attachUserMsg
    { fileDataUrl := some "data:image/png;base64,AA=="
      fileName := some "photo.png", fileType := some "image/png" }
    "data:image/png;base64,AA==" "photo.png" rfl rfl rfl (by decide) rfl (by decide) rfl

/-- C5: when the parsed body has a messages field that is missing, not an array, or
an empty array, the handler responds 400 with the body saying the messages array is
required and cannot be empty, and never contacts upstream. -/
theorem C5_validation_rejects (key : String) (hk : key ≠ "") (b : ReqBody)
    (u : UpstreamResult)
    (hb : b = ReqBody.missingMessages ∨ b = ReqBody.notArray
      ∨ b = ReqBody.messages []) :
    (POST (some key) b u).status = 400 ∧
    (POST (some key) b u).body = validationErrorBody ∧
    (POST (some key) b u).upstreamCalled = false := by
  have hkey : optTruthy (some key) = true := by simp [optTruthy, bne_iff_ne, hk]
  rcases hb with h | h | h <;> subst h <;> simp [POST, hkey, validationResponse]

/-- C5, witness at a concrete empty-array input. -/
theorem C5_witness :
    (POST (some "k") (ReqBody.messages []) UpstreamResult.abortError).status = 400 ∧
    (POST (some "k") (ReqBody.messages []) UpstreamResult.abortError).body
      = validationErrorBody ∧
    (POST (some "k") (ReqBody.messages []) UpstreamResult.abortError).upstreamCalled
      = false :=
  C5_validation_rejects "k" (by decide) (ReqBody.messages []) UpstreamResult.abortError
    (Or.inr (Or.inr rfl))

/-- C6, counterexample: an upstream APIError with status 403 whose message contains
the abort marker text is dispatched by the abort check of the catch block first: the
handler responds 504 (not the upstream 403) with the fixed timeout body, which does
not contain the upstream message. -/
theorem C6_counterexample :
    (POST (some "k") (ReqBody.messages [helloMsg])
        (UpstreamResult.apiError (some 403) abortMarker)).status = 504 ∧
    (some 403).getD 500 = 403 ∧
    ¬ containsStr
        (POST (some "k") (ReqBody.messages [helloMsg])
          (UpstreamResult.apiError (some 403) abortMarker)).body
        abortMarker := by
  refine ⟨by decide, rfl, ?_⟩
  rw [containsStr_iff_chars]
  decide

/-- C6 (amended): when the upstream create call fails with an SDK APIError before
streaming begins and the upstream message does not contain the abort marker text,
the response status equals the upstream-reported status (500 when absent) and the
response body contains the upstream message text; an APIError whose message does
contain the marker is classified by the preceding abort check and yields 504 with
the fixed timeout body instead. Statuses are genuine HTTP statuses, hence
positive. -/
theorem C6_upstream_error_mapped (key : String) (hk : key ≠ "")
    (msgs : List ClientMessage) (hm : msgs ≠ []) (st : Option Nat) (msg : String)
    (hst : ∀ s, st = some s → 0 < s)
    (habort : jsIncludes msg abortMarker = false) :
    (POST (some key) (ReqBody.messages msgs) (UpstreamResult.apiError st msg)).status
      = st.getD 500 ∧
    containsStr
      (POST (some key) (ReqBody.messages msgs) (UpstreamResult.apiError st msg)).body
      msg := by
  have hkey : optTruthy (some key) = true := by simp [optTruthy, bne_iff_ne, hk]
  have hlen : (msgs.length == 0) = false := by
    cases msgs with
    | nil => exact absurd rfl hm
    | cons a l => simp
  constructor
  · cases st with
    | none => simp [POST, hkey, hlen, habort, numTruthy]
    | some s =>
        have hs := hst s rfl
        have hne : (s != 0) = true := by
          simp only [bne_iff_ne, ne_eq]
          omega
        simp [POST, hkey, hlen, habort, numTruthy, hne]
  · by_cases hmsg : msg = ""
    · subst hmsg
      exact ⟨(POST (some key) (ReqBody.messages msgs)
          (UpstreamResult.apiError st "")).body, "", by simp [str_append_empty]⟩
    · have htr : strTruthy msg = true := by simp [strTruthy, bne_iff_ne, hmsg]
      refine ⟨"AI Service Error: ", "", ?_⟩
      simp [POST, hkey, hlen, habort, htr, str_append_empty]

/-- C6, witness for the amended theorem at a concrete 403 upstream failure whose
message does not contain the abort marker. -/
theorem C6_witness :
    (POST (some "k") (ReqBody.messages [helloMsg])
        (UpstreamResult.apiError (some 403) "Forbid")).status = (some 403).getD 500 ∧
    containsStr
      (POST (some "k") (ReqBody.messages [helloMsg])
        (UpstreamResult.apiError (some 403) "Forbid")).body
      "Forbid" :=
  C6_upstream_error_mapped "k" (by decide) [helloMsg] (by decide) (some 403) "Forbid"
    (by intro s hs; injection hs with h; omega) (by decide)

/-- C7: when a chunk carries a truthy finish reason and no earlier chunk does, the
loop emits the non-empty deltas of the earlier chunks in order, then that chunk's
delta (if non-empty), and nothing from any later chunk: the emitted sequence does
not depend on the chunks after the first finish-marked one. -/
theorem C7_finish_stops_consumption (pre post : List ChatCompletionChunk)
    (c : ChatCompletionChunk) (hpre : ∀ x ∈ pre, finishTruthy x = false)
    (hc : finishTruthy c = true) :
    emittedDeltas (pre ++ c :: post) = nonEmptyDeltas pre ++ (enqueuedDelta c).toList := by
  induction pre with
  | nil => simp [emittedDeltas, hc, nonEmptyDeltas]
  | cons a as ih =>
      have ha : finishTruthy a = false := hpre a (List.mem_cons_self a as)
      have ih2 := ih (fun x hx => hpre x (List.mem_cons_of_mem a hx))
      cases hd : enqueuedDelta a <;>
        simp [emittedDeltas, ha, nonEmptyDeltas, List.filterMap_cons, hd, ih2]

/-- C7, witness: a delta chunk, then a finish-marked chunk, then a trailing chunk;
the output is the first delta followed by the finish-marked delta only. -/
theorem C7_witness :
    emittedDeltas ([trailingChunk] ++ finishedChunk :: [trailingChunk])
      = nonEmptyDeltas [trailingChunk] ++ (enqueuedDelta finishedChunk).toList :=
  C7_finish_stops_consumption [trailingChunk] [trailingChunk] finishedChunk
    (by decide) (by decide)

/-- C8: the close path of the output stream writer is idempotent: applying
closeStream twice equals applying it once, and running closeStream after the error
path (controller.error) adds no further observable termination event, for every
writer and controller state. -/
theorem C8_close_idempotent (w : WriterState) (c : Ctrl) :
    closeStream (closeStream w) = closeStream w ∧
    (closeStream { ctrl := tryError c, streamClosed := false }).ctrl.termEvents
      = (tryError c).termEvents := by
  constructor
  · by_cases h : w.streamClosed <;> simp [closeStream, h]
  · obtain ⟨ph, nev⟩ := c
    cases ph <;> simp [closeStream, tryError, tryClose]

/-- C9: the cancel callback run on caller disconnect leaves the upstream signal
aborted, performs the abort exactly once when the signal was not already aborted
and not at all when it was, and is idempotent. -/
theorem C9_cancel_aborts_once (a : AbortState) :
    (cancelHandler a).aborted = true ∧
    (cancelHandler a).abortCalls = a.abortCalls + (if a.aborted then 0 else 1) ∧
    cancelHandler (cancelHandler a) = cancelHandler a := by
  by_cases h : a.aborted <;> simp [cancelHandler, abortNow, h]

/-- C10: with the credential absent, every POST request yields a 500 response with
body API key not configured, the request body is never read or validated, and
upstream is never contacted, regardless of body and upstream behavior. -/
theorem C10_missing_key_guard (b : ReqBody) (u : UpstreamResult) :
    (POST none b u).status = 500 ∧
    (POST none b u).body = apiKeyErrorBody ∧
    (POST none b u).parsedBody = false ∧
    (POST none b u).upstreamCalled = false := by
  simp [POST, optTruthy]

end Neurox
